import Mathlib

/-!
Shallow embedding of the inventory collection engine of `aws-audit-tool`
(`src/inventory.py`) and verification of the frozen claims about it.

Modelling conventions:

* A boto3 call behaviour is a `PyOutcome`: it returns a response, raises a
  `ClientError` (carrying `str(e)`, `e.response.Error.Code`,
  `e.response.Error.Message`), or raises some other exception.
* `safe_call` (inventory.py lines 28-45) maps a `PyOutcome` to a `PyOutcome`
  of a `SafeResp` — the dict `\x7b"ok": True, "data": ...\x7d` or
  `\x7b"ok": False, "error", "code", "message"\x7d`; non-`ClientError`
  exceptions propagate.
* AWS responses are dicts; the collectors only ever read the list stored
  under one fixed result key (`resp["data"].get(Key, [])`).  A response is
  therefore modelled by the list under its correct result key, with a
  missing key modelled as the empty list.
* Environments (`RegionEnv`, `GlobalEnv`) give the behaviour of each
  provider operation.  The seven EC2 describe operations are invoked more
  than once per region run (preliminary loop, the doubled describe_vpcs on
  line 123, and the single-call blocks), so their behaviour is indexed by
  the number of prior invocations in the run; all remaining operations are
  invoked once.  Region environments range over the return-or-ClientError
  fragment, the fragment every claim about the collectors quantifies over.
* Paginated operations are modelled by `PagerRun`: the pages successfully
  yielded, plus an optional `ClientError` raised after them (a failure of
  `get_paginator` itself is `pages = []` with a fault).
* Python dicts with a fixed key universe are modelled as structures with
  one `Option`-valued field per key, `none` meaning the key was never
  assigned.
* Exceptions escaping a function are modelled with `Except String`; the
  only such escape in the region collector is the `KeyError` on line 123
  when the guarding `safe_call(ec2.describe_vpcs)["ok"]` is true but the
  second `safe_call(ec2.describe_vpcs)["data"]` lookup is performed on a
  failed call dict.
-/

namespace AwsAudit

/-- The `Error` payload of a botocore `ClientError`, as recorded by
`safe_call` and `_paginate`: `str(e)`, `Error.Code`, `Error.Message`. -/
structure ErrObj where
  error : String
  code : String
  message : String
deriving Repr, DecidableEq

/-- Behaviour of one Python call: return a value, raise a `ClientError`,
or raise any other exception. -/
inductive PyOutcome (α : Type) where
  | ret (a : α)
  | clientError (error code message : String)
  | otherError (e : String)
deriving Repr

/-- The dict returned by `safe_call`: `\x7b"ok": True, "data": d\x7d` or
`\x7b"ok": False, "error", "code", "message"\x7d`. -/
inductive SafeResp (α : Type) where
  | ok (data : α)
  | failed (e : ErrObj)
deriving Repr, DecidableEq

/-- inventory.py lines 28-45: run a boto3 call; wrap the response on
success, downgrade a `ClientError` to a failed dict, propagate anything
else. -/
def safe_call {α : Type} : PyOutcome α → PyOutcome (SafeResp α)
  | .ret a => .ret (.ok a)
  | .clientError s c m => .ret (.failed ⟨s, c, m⟩)
  | .otherError e => .otherError e

/-- `SafeResp.isOk r` is the truth value of `resp["ok"]`. -/
def SafeResp.isOk {α : Type} : SafeResp α → Bool
  | .ok _ => true
  | .failed _ => false

/-- One run of a provider pager: the item lists of the pages it yields
(each already extracted by `page.get(result_key, []) or []`), and an
optional `ClientError` raised after those pages. -/
structure PagerRun (α : Type) where
  pages : List (List α)
  fault : Option ErrObj
deriving Repr, DecidableEq

/-- inventory.py lines 48-67: drive a pager to exhaustion, accumulating
`page.get(result_key, []) or []` per page; on a `ClientError` return
`([], error)`, discarding the pages already gathered. -/
def _paginate {α : Type} (run : PagerRun α) : List α × Option ErrObj :=
  match run.fault with
  | none => (run.pages.flatten, none)
  | some e => ([], some e)

/-- The dict `\x7b"TableName": name, **resp\x7d` appended for a failed
`describe_table` call (inventory.py line 231). -/
structure TableDescribeErr where
  tableName : String
  resp : ErrObj
deriving Repr, DecidableEq

/-- The per-region result dict built by `collect_region_inventory`.
Each Python dict key is one `Option`-valued field; `none` means the key
was never assigned. -/
structure RegionRecord (Item : Type) where
  region : String
  vpcs : Option (List Item) := none
  vpcs_error : Option ErrObj := none
  subnets : Option (List Item) := none
  subnets_error : Option ErrObj := none
  route_tables : Option (List Item) := none
  route_tables_error : Option ErrObj := none
  internet_gateways : Option (List Item) := none
  internet_gateways_error : Option ErrObj := none
  nat_gateways : Option (List Item) := none
  nat_gateways_error : Option ErrObj := none
  security_groups : Option (List Item) := none
  security_groups_error : Option ErrObj := none
  network_interfaces : Option (List Item) := none
  network_interfaces_error : Option ErrObj := none
  instances : Option (List Item) := none
  instances_error : Option ErrObj := none
  ebs_volumes : Option (List Item) := none
  ebs_volumes_error : Option ErrObj := none
  load_balancers : Option (List Item) := none
  load_balancers_error : Option ErrObj := none
  target_groups : Option (List Item) := none
  target_groups_error : Option ErrObj := none
  rds_db_instances : Option (List Item) := none
  rds_db_instances_error : Option ErrObj := none
  rds_db_clusters : Option (List Item) := none
  rds_db_clusters_error : Option ErrObj := none
  autoscaling_groups : Option (List Item) := none
  autoscaling_groups_error : Option ErrObj := none
  dynamodb_tables : Option (List Item) := none
  dynamodb_tables_error : Option ErrObj := none
  dynamodb_tables_describe_errors : Option (List TableDescribeErr) := none
deriving Repr, DecidableEq

instance {Item : Type} : Inhabited (RegionRecord Item) := ⟨{ region := "" }⟩

/-- Provider behaviour seen by one region run.  The seven EC2 describe
operations are indexed by the number of their prior invocations in the
run; all other operations are invoked exactly once. -/
structure RegionEnv (Item : Type) where
  describe_vpcs : Nat → SafeResp (List Item)
  describe_subnets : Nat → SafeResp (List Item)
  describe_route_tables : Nat → SafeResp (List Item)
  describe_internet_gateways : Nat → SafeResp (List Item)
  describe_nat_gateways : Nat → SafeResp (List Item)
  describe_security_groups : Nat → SafeResp (List Item)
  describe_network_interfaces : Nat → SafeResp (List Item)
  describe_instances : PagerRun (List Item)
  describe_volumes : PagerRun Item
  describe_load_balancers : SafeResp (List Item)
  describe_target_groups : SafeResp (List Item)
  describe_db_instances : SafeResp (List Item)
  describe_db_clusters : SafeResp (List Item)
  describe_auto_scaling_groups : PagerRun Item
  list_tables : PagerRun String
  describe_table : String → SafeResp Item

/-- `resp["data"].get(Key, []) if resp["ok"] else []` when `Key` is the
correct result key of the response. -/
def getOr {α : Type} : SafeResp (List α) → List α
  | .ok l => l
  | .failed _ => []

/-- `resp["data"].get(Key, []) if resp["ok"] else []` when `Key` is not a
key of the response (the preliminary loop computes `"Route_tables"`,
`"Internet_gateways"`, ... which never occur): `.get` defaults to `[]`
in both branches, but the call is still issued. -/
def getMismatch {α β : Type} : SafeResp α → List β
  | .ok _ => []
  | .failed _ => []

/-- `if not resp["ok"]: data[key_error] = resp` — assign the error key on
failure, leave it untouched on success. -/
def setErr {α : Type} (old : Option ErrObj) : SafeResp α → Option ErrObj
  | .ok _ => old
  | .failed e => some e

/-- inventory.py lines 106-119: `data = \x7b"region": region\x7d` followed by
the preliminary per-category loop.  The computed response keys `"Vpcs"` and
`"Subnets"` match the provider keys; the other five do not, so those
categories receive `[]` even on success. -/
def prelimRecord {Item : Type} (env : RegionEnv Item) (region : String) : RegionRecord Item :=
  { region := region
    vpcs := some (getOr (env.describe_vpcs 0))
    subnets := some (getOr (env.describe_subnets 0))
    route_tables := some (getMismatch (env.describe_route_tables 0))
    internet_gateways := some (getMismatch (env.describe_internet_gateways 0))
    nat_gateways := some (getMismatch (env.describe_nat_gateways 0))
    security_groups := some (getMismatch (env.describe_security_groups 0))
    network_interfaces := some (getMismatch (env.describe_network_interfaces 0)) }

/-- inventory.py lines 224-231: describe every listed table name in order,
appending successes to `tables` and `\x7b"TableName": name, **resp\x7d`
entries to `errors`. -/
def describeTables {Item : Type} (env : RegionEnv Item) :
    List String → List Item × List TableDescribeErr
  | [] => ([], [])
  | n :: ns =>
    let rest := describeTables env ns
    match env.describe_table n with
    | .ok t => (t :: rest.1, rest.2)
    | .failed e => (rest.1, ⟨n, e⟩ :: rest.2)

/-- inventory.py lines 127-237: the single-call blocks, the paginated
categories, load balancing, RDS, autoscaling and the DynamoDB two-phase
enumeration, applied to the record built so far.  `vIdx` is the invocation
index the single describe_vpcs block uses, `cIdx` the index the other six
single-call blocks use.  Only `r.region` and the not-yet-assigned error
keys of `r` can survive into the result; every category key is
reassigned. -/
def restBlocks {Item : Type} (env : RegionEnv Item) (vIdx cIdx : Nat)
    (r : RegionRecord Item) : RegionRecord Item :=
  let vpcsR := env.describe_vpcs vIdx
  let subnetsR := env.describe_subnets cIdx
  let routeR := env.describe_route_tables cIdx
  let igwR := env.describe_internet_gateways cIdx
  let natR := env.describe_nat_gateways cIdx
  let sgR := env.describe_security_groups cIdx
  let niR := env.describe_network_interfaces cIdx
  let instP := _paginate env.describe_instances
  let volP := _paginate env.describe_volumes
  let lbR := env.describe_load_balancers
  let tgR := env.describe_target_groups
  let rdsIR := env.describe_db_instances
  let rdsCR := env.describe_db_clusters
  let asgP := _paginate env.describe_auto_scaling_groups
  let td := describeTables env env.list_tables.pages.flatten
  { region := r.region
    vpcs := some (getOr vpcsR)
    vpcs_error := setErr r.vpcs_error vpcsR
    subnets := some (getOr subnetsR)
    subnets_error := setErr r.subnets_error subnetsR
    route_tables := some (getOr routeR)
    route_tables_error := setErr r.route_tables_error routeR
    internet_gateways := some (getOr igwR)
    internet_gateways_error := setErr r.internet_gateways_error igwR
    nat_gateways := some (getOr natR)
    nat_gateways_error := setErr r.nat_gateways_error natR
    security_groups := some (getOr sgR)
    security_groups_error := setErr r.security_groups_error sgR
    network_interfaces := some (getOr niR)
    network_interfaces_error := setErr r.network_interfaces_error niR
    instances := some (match instP.2 with
      | some _ => []
      | none => instP.1.flatten)
    instances_error := match instP.2 with
      | some e => some e
      | none => r.instances_error
    ebs_volumes := some volP.1
    ebs_volumes_error := match volP.2 with
      | some e => some e
      | none => r.ebs_volumes_error
    load_balancers := some (getOr lbR)
    load_balancers_error := setErr r.load_balancers_error lbR
    target_groups := some (getOr tgR)
    target_groups_error := setErr r.target_groups_error tgR
    rds_db_instances := some (getOr rdsIR)
    rds_db_instances_error := setErr r.rds_db_instances_error rdsIR
    rds_db_clusters := some (getOr rdsCR)
    rds_db_clusters_error := setErr r.rds_db_clusters_error rdsCR
    autoscaling_groups := some asgP.1
    autoscaling_groups_error := match asgP.2 with
      | some e => some e
      | none => r.autoscaling_groups_error
    dynamodb_tables := some (match env.list_tables.fault with
      | some _ => []
      | none => td.1)
    dynamodb_tables_error := match env.list_tables.fault with
      | some e => some e
      | none => r.dynamodb_tables_error
    dynamodb_tables_describe_errors := match env.list_tables.fault with
      | some _ => r.dynamodb_tables_describe_errors
      | none => if td.2.isEmpty then r.dynamodb_tables_describe_errors else some td.2 }

/-- inventory.py lines 98-237.  After the preliminary loop, line 123
evaluates `safe_call(ec2.describe_vpcs)["ok"]` (invocation 1) and, when it
is true, `safe_call(ec2.describe_vpcs)["data"]` on a fresh invocation 2;
if that second call fails, the failed dict has no `"data"` key and the
`KeyError` escapes the function.  Otherwise the single-call blocks run
with the remaining invocation indices. -/
def collect_region_inventory {Item : Type} (env : RegionEnv Item) (region : String) :
    Except String (RegionRecord Item) :=
  let r0 := prelimRecord env region
  match env.describe_vpcs 1 with
  | .failed _ => .ok (restBlocks env 2 1 { r0 with vpcs := some [] })
  | .ok _ =>
    match env.describe_vpcs 2 with
    | .failed _ => .error ("KeyError: data")
    | .ok l => .ok (restBlocks env 3 1 { r0 with vpcs := some l })

/-- Provider behaviour seen by `collect_global_inventory`. -/
structure GlobalEnv (Item : Type) where
  list_account_aliases : SafeResp (List String)
  list_buckets : SafeResp (List Item)
  list_users : PagerRun Item

/-- The global result dict built by `collect_global_inventory`; one
`Option`-valued field per Python dict key. -/
structure GlobalRecord (Item : Type) where
  account_aliases : Option (List String) := none
  account_aliases_error : Option ErrObj := none
  s3_buckets : Option (List Item) := none
  s3_buckets_error : Option ErrObj := none
  iam_users : Option (List Item) := none
  iam_users_error : Option ErrObj := none
deriving Repr, DecidableEq

/-- inventory.py lines 70-95: account aliases, S3 buckets, paginated IAM
users; each category is `[]` plus an error key on failure. -/
def collect_global_inventory {Item : Type} (env : GlobalEnv Item) : GlobalRecord Item :=
  let aliasesR := env.list_account_aliases
  let bucketsR := env.list_buckets
  let usersP := _paginate env.list_users
  { account_aliases := some (getOr aliasesR)
    account_aliases_error := setErr none aliasesR
    s3_buckets := some (getOr bucketsR)
    s3_buckets_error := setErr none bucketsR
    iam_users := some usersP.1
    iam_users_error := usersP.2 }

/-- The dict returned by `collect_inventory`. -/
structure InventorySnapshot (Item : Type) where
  regions : List String
  globalInv : GlobalRecord Item
  items : List (RegionRecord Item)
deriving Repr, DecidableEq

/-- Lexicographic code-point comparison of character lists — how Python
compares two string sort keys. -/
def charsLe (xs ys : List Char) : Bool :=
  match xs, ys with
  | [], _ => true
  | _ :: _, [] => false
  | c :: cs, d :: ds =>
    if c.toNat < d.toNat then true
    else if d.toNat < c.toNat then false
    else charsLe cs ds

/-- Python string comparison `a <= b` (lexicographic by code point). -/
def strLe (a b : String) : Prop := charsLe a.data b.data = true

instance : DecidableRel strLe := fun _ _ => inferInstanceAs (Decidable (_ = true))

/-- The sort key comparison of inventory.py line 257:
`items.sort(key=lambda x: x.get("region", ""))` sorts ascending by the
"region" entry.  `list.sort` is a stable ascending sort, modelled below by
the stable `List.insertionSort` over this relation. -/
def recLe {Item : Type} (a b : RegionRecord Item) : Prop :=
  strLe a.region b.region

instance {Item : Type} : DecidableRel (@recLe Item) :=
  fun _ _ => inferInstanceAs (Decidable (_ = true))

/-- inventory.py lines 240-259.  `completed` is the order in which
`as_completed` yields the region futures — any permutation of the
submitted regions.  Each `fut.result()` re-raises an exception that
escaped the worker, so the first crashed worker in completion order
aborts the whole call; otherwise the records are gathered and sorted by
region identifier.  `max_workers` only bounds parallelism. -/
def collect_inventory {Item : Type} (genv : GlobalEnv Item)
    (renv : String → RegionEnv Item) (regions : List String)
    (max_workers : Nat) (completed : List String) :
    Except String (InventorySnapshot Item) :=
  let global_inv := collect_global_inventory genv
  if regions.isEmpty then
    .ok { regions := [], globalInv := global_inv, items := [] }
  else
    let _workers := min max_workers (max 1 regions.length)
    match completed.mapM (fun r => collect_region_inventory (renv r) r) with
    | .error e => .error e
    | .ok items =>
      .ok { regions := regions
            globalInv := global_inv
            items := List.insertionSort recLe items }

/-- Every tracked category key of a region record is assigned. -/
def allCategoriesAssigned {Item : Type} (d : RegionRecord Item) : Prop :=
  d.vpcs.isSome ∧ d.subnets.isSome ∧ d.route_tables.isSome ∧
  d.internet_gateways.isSome ∧ d.nat_gateways.isSome ∧ d.security_groups.isSome ∧
  d.network_interfaces.isSome ∧ d.instances.isSome ∧ d.ebs_volumes.isSome ∧
  d.load_balancers.isSome ∧ d.target_groups.isSome ∧ d.rds_db_instances.isSome ∧
  d.rds_db_clusters.isSome ∧ d.autoscaling_groups.isSome ∧ d.dynamodb_tables.isSome

/-- A region environment in which every provider API call in the region
raises a `ClientError` with payload `e`. -/
def allFailEnv {Item : Type} (e : ErrObj) : RegionEnv Item :=
  { describe_vpcs := fun _ => .failed e
    describe_subnets := fun _ => .failed e
    describe_route_tables := fun _ => .failed e
    describe_internet_gateways := fun _ => .failed e
    describe_nat_gateways := fun _ => .failed e
    describe_security_groups := fun _ => .failed e
    describe_network_interfaces := fun _ => .failed e
    describe_instances := ⟨[], some e⟩
    describe_volumes := ⟨[], some e⟩
    describe_load_balancers := .failed e
    describe_target_groups := .failed e
    describe_db_instances := .failed e
    describe_db_clusters := .failed e
    describe_auto_scaling_groups := ⟨[], some e⟩
    list_tables := ⟨[], some e⟩
    describe_table := fun _ => .failed e }

/-- The record an all-failed region produces: every category `[]`, every
category error key set, and no per-table describe errors (the DynamoDB
phase returns early on the listing fault). -/
def allFailRecord {Item : Type} (e : ErrObj) (region : String) : RegionRecord Item :=
  { region := region
    vpcs := some [], vpcs_error := some e
    subnets := some [], subnets_error := some e
    route_tables := some [], route_tables_error := some e
    internet_gateways := some [], internet_gateways_error := some e
    nat_gateways := some [], nat_gateways_error := some e
    security_groups := some [], security_groups_error := some e
    network_interfaces := some [], network_interfaces_error := some e
    instances := some [], instances_error := some e
    ebs_volumes := some [], ebs_volumes_error := some e
    load_balancers := some [], load_balancers_error := some e
    target_groups := some [], target_groups_error := some e
    rds_db_instances := some [], rds_db_instances_error := some e
    rds_db_clusters := some [], rds_db_clusters_error := some e
    autoscaling_groups := some [], autoscaling_groups_error := some e
    dynamodb_tables := some [], dynamodb_tables_error := some e
    dynamodb_tables_describe_errors := none }

/-- Per-category outcomes for one region: the behaviour of a region run
under pure per-category failure injection, where each operation behaves
the same on every invocation. -/
structure RegionOutcomes (Item : Type) where
  vpcs : SafeResp (List Item)
  subnets : SafeResp (List Item)
  route_tables : SafeResp (List Item)
  internet_gateways : SafeResp (List Item)
  nat_gateways : SafeResp (List Item)
  security_groups : SafeResp (List Item)
  network_interfaces : SafeResp (List Item)
  instances : PagerRun (List Item)
  volumes : PagerRun Item
  load_balancers : SafeResp (List Item)
  target_groups : SafeResp (List Item)
  db_instances : SafeResp (List Item)
  db_clusters : SafeResp (List Item)
  auto_scaling_groups : PagerRun Item
  tables : PagerRun String
  table_desc : String → SafeResp Item

/-- The region environment induced by fixed per-category outcomes. -/
def RegionOutcomes.env {Item : Type} (o : RegionOutcomes Item) : RegionEnv Item :=
  { describe_vpcs := fun _ => o.vpcs
    describe_subnets := fun _ => o.subnets
    describe_route_tables := fun _ => o.route_tables
    describe_internet_gateways := fun _ => o.internet_gateways
    describe_nat_gateways := fun _ => o.nat_gateways
    describe_security_groups := fun _ => o.security_groups
    describe_network_interfaces := fun _ => o.network_interfaces
    describe_instances := o.instances
    describe_volumes := o.volumes
    describe_load_balancers := o.load_balancers
    describe_target_groups := o.target_groups
    describe_db_instances := o.db_instances
    describe_db_clusters := o.db_clusters
    describe_auto_scaling_groups := o.auto_scaling_groups
    list_tables := o.tables
    describe_table := o.table_desc }

/-- The record a crash-free worker for region `r` hands to the
orchestrator (the error branch is never reached in crash-free contexts). -/
def regionResult {Item : Type} (renv : String → RegionEnv Item) (r : String) :
    RegionRecord Item :=
  match collect_region_inventory (renv r) r with
  | .ok d => d
  | .error _ => { region := r }

/-- The region-record sequence of a completed snapshot as a pure function
of the requested region list: empty for no regions, otherwise the
per-region records sorted by region identifier. -/
def canonicalItems {Item : Type} (renv : String → RegionEnv Item)
    (regions : List String) : List (RegionRecord Item) :=
  if regions.isEmpty then []
  else List.insertionSort recLe (regions.map (regionResult renv))

/-- The record the single-call section of `collect_region_inventory`
(inventory.py lines 127-237) alone would produce, with each operation on
its first invocation. -/
def single_call_record {Item : Type} (env : RegionEnv Item) (region : String) :
    RegionRecord Item :=
  restBlocks env 0 0 { region := region }

/-- `env` with its `describe_table` behaviour replaced — used to state
that the DynamoDB description fan-out is short-circuited. -/
def RegionEnv.setTableDesc {Item : Type} (env : RegionEnv Item)
    (f : String → SafeResp Item) : RegionEnv Item :=
  { env with describe_table := f }

/-- Error object used by the concrete witness environments. -/
def e0 : ErrObj := ⟨"error", "Code", "Message"⟩

/-- Concrete per-category outcomes used by the witnesses: every call
succeeds except describing table "B". -/
def okOutcomes : RegionOutcomes String :=
  { vpcs := .ok ["v1"]
    subnets := .ok []
    route_tables := .ok []
    internet_gateways := .ok []
    nat_gateways := .ok []
    security_groups := .ok []
    network_interfaces := .ok []
    instances := ⟨[[["i1", "i2"], ["i3"]]], none⟩
    volumes := ⟨[["w1"]], none⟩
    load_balancers := .ok []
    target_groups := .ok []
    db_instances := .ok []
    db_clusters := .ok []
    auto_scaling_groups := ⟨[], none⟩
    tables := ⟨[["A", "B", "C"]], none⟩
    table_desc := fun n => if n = "B" then .failed e0 else .ok n }

/-- Concrete global environment used by the witnesses. -/
def okGlobalEnv : GlobalEnv String :=
  ⟨.ok ["alias1"], .ok ["bucket1"], ⟨[["user1"]], none⟩⟩

/-- Concrete region list used by the witnesses. -/
def regsW : List String := ["ap-south-1", "eu-west-1", "us-east-1"]

/-- Per-region outcomes used by the orchestrator witnesses. -/
def outsW : String → RegionOutcomes String := fun _ => okOutcomes

/-- Per-region environments used by the orchestrator witnesses. -/
def renvW : String → RegionEnv String := fun r => (outsW r).env

/-- The snapshot every witness run of the orchestrator returns. -/
def snapW : InventorySnapshot String :=
  { regions := regsW, globalInv := collect_global_inventory okGlobalEnv,
    items := canonicalItems renvW regsW }

/-- A region environment whose describe_vpcs succeeds on the line-123
guard call (invocation 1) and raises a provider fault on the line-123
value call (invocation 2): `safe_call(ec2.describe_vpcs)["data"]` is then
looked up on a failed call dict and a `KeyError` escapes the worker. -/
def crashEnv : RegionEnv String :=
  { okOutcomes.env with describe_vpcs := fun i => if i = 2 then .failed e0 else .ok [] }

/-- The record describing a full region run with all calls succeeding,
used to state the C6 witness. -/
def dW : RegionRecord String := single_call_record okOutcomes.env ("eu-west-1")

theorem charsLe_total : ∀ (xs ys : List Char),
    charsLe xs ys = true ∨ charsLe ys xs = true
  | [], _ => Or.inl rfl
  | _ :: _, [] => Or.inr rfl
  | c :: cs, d :: ds => by
    simp only [charsLe]
    rcases Nat.lt_trichotomy c.toNat d.toNat with h | h | h
    · left
      simp [h]
    · have h1 : ¬ c.toNat < d.toNat := by omega
      have h2 : ¬ d.toNat < c.toNat := by omega
      simp only [h1, h2, if_false]
      exact charsLe_total cs ds
    · right
      simp [h]

theorem charsLe_trans : ∀ (xs ys zs : List Char),
    charsLe xs ys = true → charsLe ys zs = true → charsLe xs zs = true
  | [], _, _, _, _ => rfl
  | _ :: _, [], _, h, _ => by simp [charsLe] at h
  | _ :: _, _ :: _, [], _, h2 => by simp [charsLe] at h2
  | c :: cs, d :: ds, f :: fs, h1, h2 => by
    simp only [charsLe] at h1 h2 ⊢
    rcases Nat.lt_trichotomy c.toNat d.toNat with hcd | hcd | hcd
    · rcases Nat.lt_trichotomy d.toNat f.toNat with hdf | hdf | hdf
      · simp [show c.toNat < f.toNat by omega]
      · simp [show c.toNat < f.toNat by omega]
      · rw [if_neg (by omega), if_pos (by omega)] at h2
        cases h2
    · rw [if_neg (by omega), if_neg (by omega)] at h1
      rcases Nat.lt_trichotomy d.toNat f.toNat with hdf | hdf | hdf
      · simp [show c.toNat < f.toNat by omega]
      · rw [if_neg (by omega), if_neg (by omega)] at h2
        rw [if_neg (by omega), if_neg (by omega)]
        exact charsLe_trans cs ds fs h1 h2
      · rw [if_neg (by omega), if_pos (by omega)] at h2
        cases h2
    · rw [if_neg (by omega), if_pos (by omega)] at h1
      cases h1

theorem charsLe_antisymm : ∀ (xs ys : List Char),
    charsLe xs ys = true → charsLe ys xs = true → xs = ys
  | [], [], _, _ => rfl
  | [], _ :: _, _, h2 => by simp [charsLe] at h2
  | _ :: _, [], h1, _ => by simp [charsLe] at h1
  | c :: cs, d :: ds, h1, h2 => by
    simp only [charsLe] at h1 h2
    rcases Nat.lt_trichotomy c.toNat d.toNat with hcd | hcd | hcd
    · rw [if_neg (by omega), if_pos (by omega)] at h2
      cases h2
    · rw [if_neg (by omega), if_neg (by omega)] at h1
      rw [if_neg (by omega), if_neg (by omega)] at h2
      have hcc : c = d := Char.eq_of_val_eq (UInt32.toNat.inj hcd)
      rw [hcc, charsLe_antisymm cs ds h1 h2]
    · rw [if_neg (by omega), if_pos (by omega)] at h1
      cases h1

instance : IsAntisymm String strLe :=
  ⟨fun a b => match a, b with
    | ⟨da⟩, ⟨db⟩ => fun h1 h2 => congrArg String.mk (charsLe_antisymm da db h1 h2)⟩

instance {Item : Type} : IsTotal (RegionRecord Item) recLe :=
  ⟨fun _ _ => charsLe_total _ _⟩

instance {Item : Type} : IsTrans (RegionRecord Item) recLe :=
  ⟨fun _ _ _ => charsLe_trans _ _ _⟩

theorem restBlocks_region {Item : Type} (env : RegionEnv Item) (v c : Nat)
    (r : RegionRecord Item) : (restBlocks env v c r).region = r.region := rfl

theorem collect_region_inventory_region {Item : Type} (env : RegionEnv Item)
    (region : String) (d : RegionRecord Item)
    (h : collect_region_inventory env region = .ok d) : d.region = region := by
  unfold collect_region_inventory at h
  cases h1 : env.describe_vpcs 1 <;> rw [h1] at h
  · cases h2 : env.describe_vpcs 2 <;> rw [h2] at h
    · injection h with h; subst h; rfl
    · cases h
  · injection h with h; subst h; rfl

theorem regionResult_region {Item : Type} (renv : String → RegionEnv Item)
    (r : String) : (regionResult renv r).region = r := by
  unfold regionResult
  cases h : collect_region_inventory (renv r) r
  · rfl
  · exact collect_region_inventory_region _ _ _ h

/-- C8: `safe_call` wraps a successful response as `Ok`, downgrades a
provider-reported fault (`ClientError` with code and message) to
`Failed(code, message)` without letting the exception escape, and
propagates every other exception unchanged. -/
theorem C8_safe_call_adapter {α : Type} (a : α) (s c m e : String) :
    safe_call (PyOutcome.ret a) = PyOutcome.ret (SafeResp.ok a) ∧
    safe_call (α := α) (PyOutcome.clientError s c m) =
      PyOutcome.ret (SafeResp.failed ⟨s, c, m⟩) ∧
    safe_call (α := α) (PyOutcome.otherError e) = PyOutcome.otherError e :=
  ⟨rfl, rfl, rfl⟩

/-- C5: if the pager fails after zero or more pages were already consumed,
`_paginate` returns the empty list with the structured error — the partial
pages are discarded; on full success it returns all pages concatenated
with no error. -/
theorem C5_paginate_discards_partial_pages {α : Type} (run : PagerRun α) :
    (∀ e, run.fault = some e → _paginate run = ([], some e)) ∧
    (run.fault = none → _paginate run = (run.pages.flatten, none)) := by
  constructor
  · intro e he
    simp [_paginate, he]
  · intro h
    simp [_paginate, h]

/-- C5 witness: a pager that fails after yielding 2 pages yields `[]` plus
the error; the same pages without the fault yield all items. -/
theorem C5_paginate_discards_partial_pages_witness :
    _paginate (α := String) ⟨[["p1"], ["p2"]], some ⟨"err", "Code", "Message"⟩⟩ =
      ([], some ⟨"err", "Code", "Message"⟩) ∧
    _paginate (α := String) ⟨[["p1"], ["p2"]], none⟩ = (["p1", "p2"], none) :=
  ⟨(C5_paginate_discards_partial_pages _).1 _ rfl, (C5_paginate_discards_partial_pages _).2 rfl⟩

/-- C7: with an empty region list, for any worker bound, `collect_inventory`
still runs the global collector and returns a snapshot with an empty
region-record sequence and a fully populated global record (all three
global category keys assigned). -/
theorem C7_empty_regions_global {Item : Type} (genv : GlobalEnv Item)
    (renv : String → RegionEnv Item) (w : Nat) :
    collect_inventory genv renv [] w [] =
      .ok { regions := [], globalInv := collect_global_inventory genv, items := [] } ∧
    (collect_global_inventory genv).account_aliases.isSome = true ∧
    (collect_global_inventory genv).s3_buckets.isSome = true ∧
    (collect_global_inventory genv).iam_users.isSome = true :=
  ⟨rfl, rfl, rfl, rfl⟩

theorem mapM_except_ok_iff {α β : Type} (w : α → Except String β) :
    ∀ (l : List α) (res : List β),
      l.mapM w = Except.ok res ↔
        List.Forall₂ (fun a b => w a = Except.ok b) l res := by
  intro l
  induction l with
  | nil =>
    intro res
    simp only [List.mapM_nil]
    constructor
    · intro h
      injection h with h
      subst h
      exact List.Forall₂.nil
    · intro h
      cases h
      rfl
  | cons a t ih =>
    intro res
    simp only [List.mapM_cons]
    cases hwa : w a with
    | error e =>
      constructor
      · intro h
        simp [hwa, Bind.bind, Except.bind] at h
      · intro h
        cases h with
        | cons hab ht => rw [hab] at hwa; cases hwa
    | ok b =>
      constructor
      · intro h
        simp only [hwa, Bind.bind, Except.bind] at h
        cases hmt : t.mapM w with
        | error e => rw [hmt] at h; simp at h
        | ok bs =>
          rw [hmt] at h
          simp only [Pure.pure, Except.pure] at h
          injection h with h
          subst h
          exact List.Forall₂.cons hwa ((ih bs).mp hmt)
      · intro h
        cases h with
        | cons hab ht =>
          rename_i b' bs
          simp only [hwa, Bind.bind, Except.bind, (ih bs).mpr ht, Pure.pure, Except.pure]
          rw [hab] at hwa
          injection hwa with hb
          rw [hb]

theorem mapM_eq_map_regionResult {Item : Type} (renv : String → RegionEnv Item)
    {c : List String} {res : List (RegionRecord Item)}
    (h : c.mapM (fun r => collect_region_inventory (renv r) r) = Except.ok res) :
    res = c.map (regionResult renv) := by
  rw [mapM_except_ok_iff] at h
  induction h with
  | nil => rfl
  | @cons a b t bs hab ht ih =>
    simp only [List.map_cons, ← ih]
    have hb : b = regionResult renv a := by
      unfold regionResult
      rw [hab]
    rw [hb]

theorem mapM_ok_of_forall_ok {α β : Type} (w : α → Except String β) :
    ∀ (l : List α), (∀ a ∈ l, ∃ b, w a = Except.ok b) →
      ∃ res, l.mapM w = Except.ok res := by
  intro l
  induction l with
  | nil => exact fun _ => ⟨[], rfl⟩
  | cons a t ih =>
    intro h
    obtain ⟨b, hb⟩ := h a (List.mem_cons_self a t)
    obtain ⟨bs, hbs⟩ := ih fun x hx => h x (List.mem_cons_of_mem a hx)
    refine ⟨b :: bs, ?_⟩
    simp only [List.mapM_cons, hb, hbs, Bind.bind, Except.bind, Pure.pure, Except.pure]

theorem insertionSort_map_perm_eq {Item : Type} (g : String → RegionRecord Item)
    (hg : ∀ r, (g r).region = r) {c₁ c₂ : List String} (hp : c₁.Perm c₂) :
    List.insertionSort recLe (c₁.map g) = List.insertionSort recLe (c₂.map g) := by
  have hperm : (List.insertionSort recLe (c₁.map g)).Perm
      (List.insertionSort recLe (c₂.map g)) :=
    (List.perm_insertionSort _ _).trans ((hp.map g).trans
      (List.perm_insertionSort _ _).symm)
  have hs₁ := List.sorted_insertionSort recLe (c₁.map g)
  have hs₂ := List.sorted_insertionSort recLe (c₂.map g)
  have hk₁ : ((List.insertionSort recLe (c₁.map g)).map
      (fun d => d.region)).Sorted strLe := by
    rw [List.Sorted, List.pairwise_map]
    exact hs₁
  have hk₂ : ((List.insertionSort recLe (c₂.map g)).map
      (fun d => d.region)).Sorted strLe := by
    rw [List.Sorted, List.pairwise_map]
    exact hs₂
  have hkeys := List.eq_of_perm_of_sorted (hperm.map (fun d => d.region)) hk₁ hk₂
  have hfix : ∀ (c : List String) (a : RegionRecord Item),
      a ∈ List.insertionSort recLe (c.map g) → g a.region = a := by
    intro c a ha
    rw [List.mem_insertionSort] at ha
    obtain ⟨r, _, rfl⟩ := List.mem_map.mp ha
    rw [hg]
  calc List.insertionSort recLe (c₁.map g)
      = ((List.insertionSort recLe (c₁.map g)).map (fun d => d.region)).map g := by
        rw [List.map_map]
        exact ((List.map_congr_left (fun a ha => hfix c₁ a ha)).trans
          (List.map_id _)).symm
    _ = ((List.insertionSort recLe (c₂.map g)).map (fun d => d.region)).map g := by
        rw [hkeys]
    _ = List.insertionSort recLe (c₂.map g) := by
        rw [List.map_map]
        exact (List.map_congr_left (fun a ha => hfix c₂ a ha)).trans (List.map_id _)

theorem collect_inventory_ok_eq {Item : Type} (genv : GlobalEnv Item)
    (renv : String → RegionEnv Item) {regions c : List String} {w : Nat}
    {s : InventorySnapshot Item}
    (h : collect_inventory genv renv regions w c = .ok s) (hc : c.Perm regions) :
    s = { regions := regions, globalInv := collect_global_inventory genv,
          items := canonicalItems renv regions } := by
  unfold collect_inventory at h
  cases hre : regions.isEmpty with
  | true =>
    rw [hre] at h
    simp only [if_true] at h
    injection h with h
    have hr0 : regions = [] := by
      cases regions
      · rfl
      · simp [List.isEmpty] at hre
    subst h
    unfold canonicalItems
    rw [hre]
    simp [hr0]
  | false =>
    rw [hre] at h
    simp only [Bool.false_eq_true, if_false] at h
    cases hm : c.mapM (fun r => collect_region_inventory (renv r) r) with
    | error e =>
      rw [hm] at h
      cases h
    | ok items =>
      rw [hm] at h
      injection h with h
      subst h
      have hitems := mapM_eq_map_regionResult renv hm
      subst hitems
      unfold canonicalItems
      rw [hre]
      simp only [Bool.false_eq_true, if_false]
      rw [insertionSort_map_perm_eq (regionResult renv) (regionResult_region renv) hc]

theorem canonicalItems_sorted {Item : Type} (renv : String → RegionEnv Item)
    (regions : List String) :
    (canonicalItems renv regions).Sorted (@recLe Item) := by
  unfold canonicalItems
  split
  · exact List.sorted_nil
  · exact List.sorted_insertionSort recLe _

theorem outcomes_env_ok {Item : Type} (o : RegionOutcomes Item) (region : String) :
    ∃ d, collect_region_inventory o.env region = .ok d := by
  unfold collect_region_inventory
  simp only [RegionOutcomes.env]
  cases o.vpcs with
  | ok l => exact ⟨_, rfl⟩
  | failed e => exact ⟨_, rfl⟩

/-- C4: whenever `collect_inventory` returns a snapshot, its region-record
sequence is sorted ascending by region identifier, and it equals
`canonicalItems` — a pure function of the requested region list — for any
completion order of the workers; two runs with different completion orders
and different worker bounds have identical item sequences. -/
theorem C4_items_sorted_and_completion_independent {Item : Type}
    (genv : GlobalEnv Item) (renv : String → RegionEnv Item)
    (regions c₁ c₂ : List String) (w₁ w₂ : Nat) (s₁ s₂ : InventorySnapshot Item)
    (h₁ : collect_inventory genv renv regions w₁ c₁ = .ok s₁)
    (h₂ : collect_inventory genv renv regions w₂ c₂ = .ok s₂)
    (hp₁ : c₁.Perm regions) (hp₂ : c₂.Perm regions) :
    s₁.items.Sorted recLe ∧
    s₁.items = canonicalItems renv regions ∧ s₁.items = s₂.items := by
  have e₁ := collect_inventory_ok_eq genv renv h₁ hp₁
  have e₂ := collect_inventory_ok_eq genv renv h₂ hp₂
  rw [e₁, e₂]
  exact ⟨canonicalItems_sorted renv regions, rfl, rfl⟩

/-- C9: two runs over the same regions and the same provider behaviour,
one with `max_workers` below the region count and one with `max_workers`
at least the region count, return the same snapshot (for any completion
orders of the two runs). -/
theorem C9_worker_count_irrelevant {Item : Type} (genv : GlobalEnv Item)
    (renv : String → RegionEnv Item) (regions c₁ c₂ : List String)
    (w₁ w₂ : Nat) (s₁ s₂ : InventorySnapshot Item)
    (_hw₁ : w₁ < regions.length) (_hw₂ : regions.length ≤ w₂)
    (hp₁ : c₁.Perm regions) (hp₂ : c₂.Perm regions)
    (h₁ : collect_inventory genv renv regions w₁ c₁ = .ok s₁)
    (h₂ : collect_inventory genv renv regions w₂ c₂ = .ok s₂) :
    s₁ = s₂ :=
  (collect_inventory_ok_eq genv renv h₁ hp₁).trans
    (collect_inventory_ok_eq genv renv h₂ hp₂).symm

/-- C3: for every non-empty region list and every assignment of fixed
per-category outcomes (any combination of per-category failures), the run
completes and the snapshot holds exactly one region record per requested
region, for any completion order. -/
theorem C3_one_record_per_region {Item : Type} (genv : GlobalEnv Item)
    (outs : String → RegionOutcomes Item) (regions c : List String) (w : Nat)
    (hne : regions ≠ []) (hc : c.Perm regions) :
    ∃ s, collect_inventory genv (fun r => (outs r).env) regions w c = .ok s ∧
      s.items.length = regions.length ∧
      ∀ r : String, (s.items.filter fun d => d.region == r).length = regions.count r := by
  obtain ⟨items, hitems⟩ := mapM_ok_of_forall_ok
    (fun r => collect_region_inventory ((outs r).env) r) c
    (fun r _ => outcomes_env_ok (outs r) r)
  have hne' : regions.isEmpty = false := by
    cases regions
    · exact absurd rfl hne
    · rfl
  have hmap : items = c.map (regionResult fun r => (outs r).env) :=
    mapM_eq_map_regionResult _ hitems
  have hperm : (List.insertionSort recLe items).Perm
      (regions.map (regionResult fun r => (outs r).env)) := by
    rw [hmap]
    exact (List.perm_insertionSort _ _).trans (hc.map _)
  refine ⟨{ regions := regions, globalInv := collect_global_inventory genv,
            items := List.insertionSort recLe items }, ?_, ?_, ?_⟩
  · unfold collect_inventory
    rw [hne']
    simp only [Bool.false_eq_true, if_false]
    rw [hitems]
  · simpa using hperm.length_eq
  · intro r
    have hflt := (hperm.filter (fun d => d.region == r)).length_eq
    rw [hflt, List.filter_map]
    rw [List.length_map]
    have hcongr : List.filter
        ((fun d : RegionRecord Item => d.region == r) ∘ (regionResult fun x => (outs x).env))
        regions = List.filter (fun x => x == r) regions := by
      apply List.filter_congr
      intro x _
      simp only [Function.comp_apply, regionResult_region]
    rw [hcongr, ← List.countP_eq_length_filter]
    rfl

theorem restBlocks_allAssigned {Item : Type} (env : RegionEnv Item) (v c : Nat)
    (r : RegionRecord Item) : allCategoriesAssigned (restBlocks env v c r) :=
  ⟨rfl, rfl, rfl, rfl, rfl, rfl, rfl, rfl, rfl, rfl, rfl, rfl, rfl, rfl, rfl⟩

theorem collect_region_ok_of_guard_stable {Item : Type} (env : RegionEnv Item)
    (region : String)
    (h : (env.describe_vpcs 1).isOk = true → (env.describe_vpcs 2).isOk = true) :
    ∃ d, collect_region_inventory env region = .ok d ∧ allCategoriesAssigned d := by
  unfold collect_region_inventory
  cases h1 : env.describe_vpcs 1 with
  | ok l =>
    have h2 := h (by rw [h1]; rfl)
    cases h2' : env.describe_vpcs 2 with
    | ok l2 => exact ⟨_, rfl, restBlocks_allAssigned _ _ _ _⟩
    | failed e =>
      rw [h2'] at h2
      simp [SafeResp.isOk] at h2
  | failed e => exact ⟨_, rfl, restBlocks_allAssigned _ _ _ _⟩

theorem collect_region_all_fail {Item : Type} (e : ErrObj) (region : String) :
    collect_region_inventory (@allFailEnv Item e) region =
      .ok (allFailRecord e region) := rfl

/-- C2: the claim fails on the code.  Under the provider-service fault
pattern in which describe_vpcs succeeds on the line-123 guard call
(invocation 1) and fails on the line-123 value call (invocation 2),
`collect_region_inventory` raises a `KeyError` — the lookup
`safe_call(ec2.describe_vpcs)["data"]` is performed on a failed call dict —
instead of returning normally with every category assigned. -/
theorem C2_provider_fault_pattern_raises :
    collect_region_inventory crashEnv ("eu-west-1") = .error ("KeyError: data") := rfl

/-- C1: the claim fails on the code.  When the worker of region
"us-east-1" terminates abnormally with an environment-level fault (the
line-123 `KeyError`, not a provider fault) while "us-west-2" succeeds,
`fut.result()` on line 254 re-raises the exception, so `collect_inventory`
aborts with the exception instead of returning a snapshot containing a
substituted, region-failure-flagged record for "us-east-1". -/
theorem C1_worker_crash_aborts_run :
    collect_inventory okGlobalEnv
      (fun r => if r = "us-east-1" then crashEnv else okOutcomes.env)
      ["us-east-1", "us-west-2"] 8 ["us-east-1", "us-west-2"] =
      .error ("KeyError: data") := rfl

theorem describeTables_eq {Item : Type} (env : RegionEnv Item) :
    ∀ ns : List String,
      describeTables env ns =
        (ns.filterMap fun n => match env.describe_table n with
            | .ok t => some t
            | .failed _ => none,
         ns.filterMap fun n => match env.describe_table n with
            | .ok _ => none
            | .failed e => some ⟨n, e⟩)
  | [] => rfl
  | n :: ns => by
    simp only [describeTables, describeTables_eq env ns, List.filterMap_cons]
    cases env.describe_table n <;> simp

theorem collect_region_dynamo {Item : Type} (env : RegionEnv Item) (region : String)
    (d : RegionRecord Item) (h : collect_region_inventory env region = .ok d) :
    d.dynamodb_tables = some (match env.list_tables.fault with
        | some _ => []
        | none => (describeTables env env.list_tables.pages.flatten).1) ∧
    d.dynamodb_tables_error = (match env.list_tables.fault with
        | some e => some e
        | none => none) ∧
    d.dynamodb_tables_describe_errors = (match env.list_tables.fault with
        | some _ => none
        | none =>
          if (describeTables env env.list_tables.pages.flatten).2.isEmpty then none
          else some (describeTables env env.list_tables.pages.flatten).2) := by
  unfold collect_region_inventory at h
  cases h1 : env.describe_vpcs 1 <;> rw [h1] at h
  · cases h2 : env.describe_vpcs 2 <;> rw [h2] at h
    · injection h with h
      subst h
      exact ⟨rfl, rfl, rfl⟩
    · cases h
  · injection h with h
    subst h
    exact ⟨rfl, rfl, rfl⟩

theorem collect_region_table_desc_irrelevant {Item : Type} (env : RegionEnv Item)
    (region : String) (e : ErrObj) (hf : env.list_tables.fault = some e)
    (f g : String → SafeResp Item) :
    collect_region_inventory (env.setTableDesc f) region =
      collect_region_inventory (env.setTableDesc g) region := by
  unfold collect_region_inventory
  simp only [RegionEnv.setTableDesc]
  cases h1 : env.describe_vpcs 1 <;>
    cases h2 : env.describe_vpcs 2 <;>
    simp only [h1, h2, restBlocks, prelimRecord, hf]

/-- C6: in the DynamoDB category, a fault in the name-listing phase is
fatal — the category list is `[]`, the category error key is set, no
per-table error list is produced, and the result does not depend on the
describe_table behaviour (the description calls are short-circuited).
When listing succeeds, every successfully described table appears in the
category list in provider order, and each failed name contributes exactly
one entry keyed by that name to the per-item error list (absent when no
name fails). -/
theorem C6_dynamodb_listing_fatal_describe_itemwise {Item : Type}
    (env : RegionEnv Item) (region : String) (d : RegionRecord Item)
    (h : collect_region_inventory env region = .ok d) :
    (∀ e, env.list_tables.fault = some e →
        d.dynamodb_tables = some [] ∧ d.dynamodb_tables_error = some e ∧
        d.dynamodb_tables_describe_errors = none ∧
        ∀ f g : String → SafeResp Item,
          collect_region_inventory (env.setTableDesc f) region =
            collect_region_inventory (env.setTableDesc g) region) ∧
    (env.list_tables.fault = none →
        d.dynamodb_tables = some (env.list_tables.pages.flatten.filterMap fun n =>
            match env.describe_table n with
            | .ok t => some t
            | .failed _ => none) ∧
        d.dynamodb_tables_error = none ∧
        d.dynamodb_tables_describe_errors =
          (if (env.list_tables.pages.flatten.filterMap fun n =>
                  match env.describe_table n with
                  | .ok _ => none
                  | .failed e => some (⟨n, e⟩ : TableDescribeErr)).isEmpty then none
           else some (env.list_tables.pages.flatten.filterMap fun n =>
                  match env.describe_table n with
                  | .ok _ => none
                  | .failed e => some ⟨n, e⟩))) := by
  obtain ⟨ht, he, hd⟩ := collect_region_dynamo env region d h
  constructor
  · intro e hf
    rw [hf] at ht he hd
    exact ⟨ht, he, hd, collect_region_table_desc_irrelevant env region e hf⟩
  · intro hf
    rw [hf] at ht he hd
    rw [describeTables_eq] at ht
    rw [describeTables_eq] at hd
    exact ⟨ht, he, hd⟩

/-- C6 witness: listing yields tables A, B, C; describing B fails while A
and C succeed — the category holds A and C in provider order and the
per-item error list holds exactly the entry for B. -/
theorem C6_dynamodb_listing_fatal_describe_itemwise_witness :
    dW.dynamodb_tables = some ["A", "C"] ∧
    dW.dynamodb_tables_error = none ∧
    dW.dynamodb_tables_describe_errors = some [⟨"B", e0⟩] := by
  obtain ⟨h1, h2, h3⟩ :=
    (C6_dynamodb_listing_fatal_describe_itemwise okOutcomes.env ("eu-west-1") dW rfl).2 rfl
  refine ⟨h1.trans ?_, h2, h3.trans ?_⟩ <;> rfl

/-- C10: when each of the seven repeated describe operations behaves the
same on every invocation, the record returned by
`collect_region_inventory` equals the record the single-call section alone
would produce — every key the preliminary loop and the doubled line-123
describe_vpcs expression write is overwritten before return. -/
theorem C10_prelim_block_overwritten {Item : Type} (env : RegionEnv Item)
    (region : String)
    (hv : ∀ i, env.describe_vpcs i = env.describe_vpcs 0)
    (hs : ∀ i, env.describe_subnets i = env.describe_subnets 0)
    (hrt : ∀ i, env.describe_route_tables i = env.describe_route_tables 0)
    (hig : ∀ i, env.describe_internet_gateways i = env.describe_internet_gateways 0)
    (hng : ∀ i, env.describe_nat_gateways i = env.describe_nat_gateways 0)
    (hsg : ∀ i, env.describe_security_groups i = env.describe_security_groups 0)
    (hni : ∀ i, env.describe_network_interfaces i = env.describe_network_interfaces 0) :
    collect_region_inventory env region = .ok (single_call_record env region) := by
  unfold collect_region_inventory single_call_record
  cases h0 : env.describe_vpcs 0 with
  | ok l =>
    rw [hv 1, h0, hv 2, h0]
    simp only [restBlocks, prelimRecord]
    rw [hv 3, hs 1, hrt 1, hig 1, hng 1, hsg 1, hni 1]
  | failed e =>
    rw [hv 1, h0]
    simp only [restBlocks, prelimRecord]
    rw [hv 2, hs 1, hrt 1, hig 1, hng 1, hsg 1, hni 1]

/-- C10 witness: a concrete deterministic environment where the full run
returns exactly the single-call-section record. -/
theorem C10_prelim_block_overwritten_witness :
    collect_region_inventory okOutcomes.env ("eu-west-1") =
      .ok (single_call_record okOutcomes.env ("eu-west-1")) := by
  refine C10_prelim_block_overwritten okOutcomes.env ("eu-west-1")
    ?_ ?_ ?_ ?_ ?_ ?_ ?_ <;> exact fun i => rfl

/-- C3 witness: three regions with a mixed per-category outcome
assignment, collected in a different completion order — exactly one
record per region. -/
theorem C3_one_record_per_region_witness :
    ∃ s, collect_inventory okGlobalEnv (fun r => (outsW r).env) regsW 4
        ["us-east-1", "ap-south-1", "eu-west-1"] = .ok s ∧
      s.items.length = regsW.length ∧
      ∀ r : String, (s.items.filter fun d => d.region == r).length = regsW.count r :=
  C3_one_record_per_region okGlobalEnv outsW regsW
    ["us-east-1", "ap-south-1", "eu-west-1"] 4 (by decide) (by decide)

/-- C4 witness: two concrete runs over the same three regions with
different completion orders and worker bounds both return `snapW`, whose
items are sorted and canonical. -/
theorem C4_items_sorted_and_completion_independent_witness :
    snapW.items.Sorted recLe ∧
    snapW.items = canonicalItems renvW regsW ∧ snapW.items = snapW.items :=
  C4_items_sorted_and_completion_independent okGlobalEnv renvW regsW
    ["us-east-1", "ap-south-1", "eu-west-1"] regsW 2 8 snapW snapW
    (by rfl) (by rfl) (by decide) (by decide)

/-- C9 witness: 2 workers over 3 regions versus 8 workers, with different
completion orders, produce the same snapshot. -/
theorem C9_worker_count_irrelevant_witness :
    2 < regsW.length ∧ regsW.length ≤ 8 ∧ snapW = snapW :=
  ⟨by decide, by decide,
    C9_worker_count_irrelevant okGlobalEnv renvW regsW
      ["us-east-1", "ap-south-1", "eu-west-1"] regsW 2 8 snapW snapW
      (by decide) (by decide) (by decide) (by decide) (by rfl) (by rfl)⟩
